import Mathlib

/-!
Verification of the pysbatch-ng job-monitoring supervisor
(`pysbatch_ng/polling.py` and `pysbatch_ng/dumbdata.py`).

The source is shallowly embedded: the Slurm state enumeration and the two
classification lists are transcribed from `dumbdata.py`; `perform_check`
(the status probe), `__enter__` / `__exit__` (the lock lifecycle) and
`__loop` (the polling state machine) are transcribed from `polling.py`.
Filesystem and process effects are made explicit: the probe's raw output
becomes a list of lines, each poll of the loop consumes one element of a
list of probe results, and the lock/relaunch side effects of `__exit__`
are returned as a record of booleans.
-/

namespace Pysbatch

/-- The Slurm job state enumeration `SStates` of `dumbdata.py`
(25 members, `UNKNOWN_STATE` included). -/
inductive SStates
  | BOOT_FAIL
  | CANCELLED
  | COMPLETED
  | CONFIGURING
  | COMPLETING
  | DEADLINE
  | FAILED
  | NODE_FAIL
  | OUT_OF_MEMORY
  | PENDING
  | PREEMPTED
  | RUNNING
  | RESV_DEL_HOLD
  | REQUEUE_FED
  | REQUEUE_HOLD
  | REQUEUED
  | RESIZING
  | REVOKED
  | SIGNALING
  | SPECIAL_EXIT
  | STAGE_OUT
  | STOPPED
  | SUSPENDED
  | TIMEOUT
  | UNKNOWN_STATE
  deriving DecidableEq, Fintype, Repr

/-- `failure_states` of `dumbdata.py`: the terminal-failure list. -/
def failure_states : List SStates :=
  [SStates.BOOT_FAIL, SStates.DEADLINE, SStates.NODE_FAIL,
   SStates.OUT_OF_MEMORY, SStates.STOPPED, SStates.FAILED, SStates.CANCELLED]

/-- `states_to_end` of `dumbdata.py`: the terminal-success list. -/
def states_to_end : List SStates :=
  [SStates.COMPLETED, SStates.TIMEOUT]

/-- The three categories a state classifies into. -/
inductive StateCategory
  | success
  | failure
  | inProgress
  deriving DecidableEq, Repr

/-- Classification of a state, in the branch order of `Poller.__loop`
(`polling.py` lines 393-398): membership in `states_to_end` is checked
first, then membership in `failure_states`, anything else is in-progress. -/
def classify (s : SStates) : StateCategory :=
  if s ∈ states_to_end then StateCategory.success
  else if s ∈ failure_states then StateCategory.failure
  else StateCategory.inProgress

/-- Greedy span: longest prefix of characters satisfying `p`, and the rest.
Models the greedy runs `\d+` and `[a-zA-Z]+` of the probe's regular
expression (greediness is harmless here because the character after each
run, a bar, never satisfies the run's class). -/
def spanP (p : Char → Bool) : List Char → List Char × List Char
  | [] => ([], [])
  | c :: cs =>
    if p c then
      let t := spanP p cs
      (c :: t.1, t.2)
    else ([], c :: cs)

/-- The per-line pattern of `Poller.perform_check` (`polling.py` line 337):
`re.match(r"^\d+\|[a-zA-Z]+\|$", line)`. On a match, returns the state
token between the two bars — which is what `line.split("|")[1]` extracts
on line 338. `\d` is modelled as the ASCII decimal digits. -/
def matchLine (cs : List Char) : Option (List Char) :=
  match spanP Char.isDigit cs with
  | ([], _) => none
  | (_ :: _, []) => none
  | (_ :: _, c1 :: r2) =>
    if c1 = '|' then
      match spanP Char.isAlpha r2 with
      | ([], _) => none
      | (_ :: _, []) => none
      | (a :: tok, c2 :: rest2) =>
        if c2 = '|' then
          if rest2 = [] then some (a :: tok) else none
        else none
    else none

/-- `SStates(token)`: the `StrEnum` constructor call on `polling.py`
line 338. Lookup is by exact value; an unrecognized token raises
`ValueError`, modelled as `none`. -/
def sstatesOfToken (tok : List Char) : Option SStates :=
  if tok = "BOOT_FAIL".data then some SStates.BOOT_FAIL
  else if tok = "CANCELLED".data then some SStates.CANCELLED
  else if tok = "COMPLETED".data then some SStates.COMPLETED
  else if tok = "CONFIGURING".data then some SStates.CONFIGURING
  else if tok = "COMPLETING".data then some SStates.COMPLETING
  else if tok = "DEADLINE".data then some SStates.DEADLINE
  else if tok = "FAILED".data then some SStates.FAILED
  else if tok = "NODE_FAIL".data then some SStates.NODE_FAIL
  else if tok = "OUT_OF_MEMORY".data then some SStates.OUT_OF_MEMORY
  else if tok = "PENDING".data then some SStates.PENDING
  else if tok = "PREEMPTED".data then some SStates.PREEMPTED
  else if tok = "RUNNING".data then some SStates.RUNNING
  else if tok = "RESV_DEL_HOLD".data then some SStates.RESV_DEL_HOLD
  else if tok = "REQUEUE_FED".data then some SStates.REQUEUE_FED
  else if tok = "REQUEUE_HOLD".data then some SStates.REQUEUE_HOLD
  else if tok = "REQUEUED".data then some SStates.REQUEUED
  else if tok = "RESIZING".data then some SStates.RESIZING
  else if tok = "REVOKED".data then some SStates.REVOKED
  else if tok = "SIGNALING".data then some SStates.SIGNALING
  else if tok = "SPECIAL_EXIT".data then some SStates.SPECIAL_EXIT
  else if tok = "STAGE_OUT".data then some SStates.STAGE_OUT
  else if tok = "STOPPED".data then some SStates.STOPPED
  else if tok = "SUSPENDED".data then some SStates.SUSPENDED
  else if tok = "TIMEOUT".data then some SStates.TIMEOUT
  else if tok = "UNKNOWN_STATE".data then some SStates.UNKNOWN_STATE
  else none

/-- `Poller.perform_check` (`polling.py` lines 333-340), given the lines
of the raw `sacct` output. The configured `jobid` is passed because the
spec's probe contract mentions it, but the source uses it only to build
the `sacct` command line (line 334) — the parsing of the output never
consults it. The first line matching the pattern decides the result:
its token goes through the `SStates` constructor (`none` = the
constructor raised). If no line matches, the state is set to
`UNKNOWN_STATE`. -/
def perform_check (jobid : Nat) (outLines : List (List Char)) : Option SStates :=
  match outLines with
  | [] => some SStates.UNKNOWN_STATE
  | l :: rest =>
    match matchLine l with
    | some tok => sstatesOfToken tok
    | none => perform_check jobid rest

/-- The token class of the pattern as the spec writes it: `[A-Za-z_]`,
an ASCII letter or an underscore. -/
def isAlphaU (c : Char) : Bool := c.isAlpha || c = '_'

/-- The per-line pattern exactly as the spec writes it
(`^\d+\|[A-Za-z_]+\|`, §8): underscore allowed in the token and no end
anchor (`re.match` is a match at the start of the line). -/
def specLineMatch (cs : List Char) : Bool :=
  match spanP Char.isDigit cs with
  | ([], _) => false
  | (_ :: _, []) => false
  | (_ :: _, c1 :: r2) =>
    if c1 = '|' then
      match spanP isAlphaU r2 with
      | ([], _) => false
      | (_ :: _, []) => false
      | (_ :: _, c2 :: _) => if c2 = '|' then true else false
    else false

/-- Outcome of one `perform_check` call as seen by the loop: either the
state it set, or an exception it raised. -/
inductive ProbeResult
  | state (s : SStates)
  | exn
  deriving DecidableEq, Repr

/-- What `Poller.__loop` hands back when it returns.
`retval` is the boolean returned by `__loop`; `okFlag` is `self.__ok`
(set by `self.ok()` only on some paths); `finalState` is
`self.__current_state` at return; `polls` counts the `perform_check`
calls made; `informed` records whether `inform_user` was called on the
exit path. -/
structure LoopResult where
  retval : Bool
  okFlag : Bool
  finalState : SStates
  polls : Nat
  informed : Bool
  deriving DecidableEq, Repr

/-- The loop's internal trackers when the supplied probe results run out
while the loop would still be polling: `last_state`, `last_state_times`,
`self.__current_state`, and the number of polls made so far. -/
structure LoopPending where
  lastState : SStates
  lastTimes : Nat
  curState : SStates
  polls : Nat
  deriving DecidableEq, Repr

/-- `Poller.__loop` (`polling.py` lines 373-430), one recursive step per
poll, consuming one `ProbeResult` per iteration. `T` is
`self.times_criteria`. Branches in source order:
probe exception (lines 384-390: `inform_user` then re-raise, caught at
line 427, returning `False` with `__ok` unset); `states_to_end`
(lines 393-397: `ok()`, return `True`); `failure_states`
(lines 398-402: `ok()`, return `False`); `PENDING` (line 407: continue);
`RUNNING` (lines 409-412: reset trackers); same strange state
(lines 414-421: bump `last_state_times`, fail once it exceeds `T`,
with `ok()` set); new strange state (lines 422-425: reset trackers).
Returns `Sum.inr` with the trackers if the probe results run out. -/
def loopGo (T : Nat) : SStates → Nat → SStates → Nat → List ProbeResult →
    LoopResult ⊕ LoopPending
  | ls, c, cs, p, [] => Sum.inr ⟨ls, c, cs, p⟩
  | ls, c, cs, p, r :: rest =>
    match r with
    | ProbeResult.exn => Sum.inl ⟨false, false, cs, p + 1, true⟩
    | ProbeResult.state s =>
      if s ∈ states_to_end then Sum.inl ⟨true, true, s, p + 1, true⟩
      else if s ∈ failure_states then Sum.inl ⟨false, true, s, p + 1, true⟩
      else if s = SStates.PENDING then loopGo T ls c s (p + 1) rest
      else if s = SStates.RUNNING then loopGo T SStates.RUNNING 0 s (p + 1) rest
      else if s = ls then
        if c + 1 > T then Sum.inl ⟨false, true, s, p + 1, true⟩
        else loopGo T ls (c + 1) s (p + 1) rest
      else loopGo T s 0 s (p + 1) rest

/-- `__loop` started on a freshly constructed `Poller`: `last_state` is
initialized from `self.state` (line 375), which is `SStates.PENDING`
(line 64), `last_state_times = 0` (line 376). `none` when the supplied
probe results run out with the loop still going. -/
def loopRun (T : Nat) (probes : List ProbeResult) : Option LoopResult :=
  match loopGo T SStates.PENDING 0 SStates.PENDING 0 probes with
  | Sum.inl r => some r
  | Sum.inr _ => none

/-- `Poller.start_loop` (`polling.py` lines 345-351): runs `__loop` when
`self.__allow` was set by `__enter__`, otherwise returns `False` at once,
making no probe call and leaving `__ok` and the state untouched. -/
def start_loop (allow : Bool) (T : Nat) (probes : List ProbeResult) :
    Option LoopResult :=
  if allow then loopRun T probes
  else some ⟨false, false, SStates.PENDING, 0, false⟩

/-- Outcome of `Poller.__enter__` (`polling.py` lines 240-250):
`check(True)` failing raises `RuntimeError("Invalud conf")`; otherwise an
existing lock file raises `RuntimeError("Lockfile exists: ...")`; only on
success is the lock file touched and `__allow` set. -/
inductive EnterOutcome
  | entered
  | invalidConf
  | lockfileExists
  deriving DecidableEq, Repr

/-- `Poller.__enter__`, on the configuration-check result and the prior
existence of the lock file. -/
def poller_enter (checkOk lockExists : Bool) : EnterOutcome :=
  if checkOk = false then EnterOutcome.invalidConf
  else if lockExists then EnterOutcome.lockfileExists
  else EnterOutcome.entered

/-- Whether the lock file exists after `__enter__`: `touch`ed on the
success path (line 247), untouched when `__enter__` raises. -/
def lockAfterEnter (checkOk lockExists : Bool) : Bool :=
  match poller_enter checkOk lockExists with
  | EnterOutcome.entered => true
  | _ => lockExists

/-- `self.__allow` after `__enter__` (line 249); stays `false` when
`__enter__` raises. -/
def allowAfterEnter (checkOk lockExists : Bool) : Bool :=
  match poller_enter checkOk lockExists with
  | EnterOutcome.entered => true
  | _ => false

/-- Number of `perform_check` calls made by
`with poller: poller.start_loop()` (`polling.py` lines 437-438): when
`__enter__` raises, the `with` body never runs and no probe is called. -/
def runWithContext (checkOk lockExists : Bool) (T : Nat)
    (probes : List ProbeResult) : Nat :=
  match poller_enter checkOk lockExists with
  | EnterOutcome.entered =>
    match loopGo T SStates.PENDING 0 SStates.PENDING 0 probes with
    | Sum.inl r => r.polls
    | Sum.inr q => q.polls
  | _ => 0

/-- The externally visible side effects of `Poller.__exit__`. -/
structure ExitEffects where
  lockDeleted : Bool
  cmdLaunched : Bool
  deriving DecidableEq, Repr

/-- `Poller.__exit__` (`polling.py` lines 252-277), on `self.__ok`, the
final state, whether a `NORESTART` file exists in the working directory,
and whether a follow-up `cmd` is configured. When `__ok` is unset it
returns at once, deleting nothing and launching nothing (lines 255-257);
otherwise it deletes the lock (line 260), then skips the launch for a
failure state (lines 261-263), for `COMPLETED` (lines 264-266), for a
present `NORESTART` file (lines 268-269) or a missing `cmd`
(lines 276-277), and launches `cmd` otherwise (lines 271-275). -/
def poller_exit (okFlag : Bool) (finalState : SStates)
    (norestart cmdConfigured : Bool) : ExitEffects :=
  if okFlag = false then ⟨false, false⟩
  else if finalState ∈ failure_states then ⟨true, false⟩
  else if finalState = SStates.COMPLETED then ⟨true, false⟩
  else if norestart then ⟨true, false⟩
  else if cmdConfigured then ⟨true, true⟩
  else ⟨true, false⟩

/-- Widening the character class of a greedy span does not change the
split, as long as the first unconsumed character is rejected by the wider
class as well. -/
lemma spanP_congr (p q : Char → Bool) (hpq : ∀ c, p c = true → q c = true) :
    ∀ (l t r : List Char), spanP p l = (t, r) →
      (∀ c, r.head? = some c → q c = false) → spanP q l = (t, r) := by
  intro l
  induction l with
  | nil =>
    intro t r h hr
    simp only [spanP] at h ⊢
    exact h
  | cons c cs ih =>
    intro t r h hr
    by_cases hpc : p c = true
    · have hu : spanP p (c :: cs) = (c :: (spanP p cs).1, (spanP p cs).2) := by
        simp [spanP, hpc]
      rw [hu, Prod.mk.injEq] at h
      obtain ⟨h1, h2⟩ := h
      subst h1
      subst h2
      have hrec := ih (spanP p cs).1 (spanP p cs).2 rfl hr
      simp [spanP, hpq c hpc, hrec]
    · have hu : spanP p (c :: cs) = ([], c :: cs) := by
        simp [spanP, hpc]
      rw [hu, Prod.mk.injEq] at h
      obtain ⟨h1, h2⟩ := h
      subst h1
      subst h2
      have hqc : q c = false := hr c (by simp)
      simp [spanP, hqc]

/-- A line matching the source's pattern `^\d+\|[a-zA-Z]+\|$` also
matches the spec's pattern `^\d+\|[A-Za-z_]+\|`. -/
lemma matchLine_spec (cs tok : List Char) (h : matchLine cs = some tok) :
    specLineMatch cs = true := by
  unfold matchLine at h
  unfold specLineMatch
  rcases hd : spanP Char.isDigit cs with ⟨ds, r1⟩
  rw [hd] at h
  match ds, r1 with
  | [], _ => exact absurd h (by simp)
  | _ :: _, [] => exact absurd h (by simp)
  | _ :: _, c1 :: r2 =>
    dsimp only at h ⊢
    by_cases hc1 : c1 = '|'
    · rw [if_pos hc1] at h
      rw [if_pos hc1]
      rcases ha : spanP Char.isAlpha r2 with ⟨as, r3⟩
      rw [ha] at h
      match as, r3 with
      | [], _ => exact absurd h (by simp)
      | _ :: _, [] => exact absurd h (by simp)
      | a :: as2, c2 :: rest2 =>
        dsimp only at h
        by_cases hc2 : c2 = '|'
        · rw [if_pos hc2] at h
          by_cases hrest : rest2 = []
          · subst hrest
            subst hc2
            have hw : spanP isAlphaU r2 = (a :: as2, ['|']) := by
              refine spanP_congr Char.isAlpha isAlphaU ?_ r2 (a :: as2) ['|'] ha ?_
              · intro c hc
                simp [isAlphaU, hc]
              · intro c hc
                simp only [List.head?] at hc
                injection hc with hc
                subst hc
                decide
            simp [hw]
          · rw [if_neg hrest] at h
            exact absurd h (by simp)
        · rw [if_neg hc2] at h
          exact absurd h (by simp)
    · rw [if_neg hc1] at h
      exact absurd h (by simp)

/-- Parsing never consults the configured job id (`polling.py` uses it
only to build the `sacct` command line). -/
lemma perform_check_jobid (j j' : Nat) :
    ∀ lines, perform_check j lines = perform_check j' lines := by
  intro lines
  induction lines with
  | nil => rfl
  | cons l rest ih =>
    rcases h : matchLine l with _ | tok
    · simp only [perform_check, h]
      exact ih
    · simp only [perform_check, h]

/-- The two terminal lists of `dumbdata.py` are disjoint. -/
lemma mem_failure_not_end (s : SStates) (h : s ∈ failure_states) :
    s ∉ states_to_end := by
  revert h
  revert s
  decide

/-- First poll of a strange state `X` on a fresh loop: the tracker is
initialized to `PENDING`, so `X` lands in the reset branch of
`polling.py` lines 422-425. -/
lemma loopGo_entry (T : Nat) (X : SStates)
    (h1 : X ∉ states_to_end) (h2 : X ∉ failure_states)
    (h3 : X ≠ SStates.PENDING) (h4 : X ≠ SStates.RUNNING)
    (xs : List ProbeResult) (p : Nat) :
    loopGo T SStates.PENDING 0 SStates.PENDING p (ProbeResult.state X :: xs) =
      loopGo T X 0 X (p + 1) xs := by
  simp only [loopGo, if_neg h1, if_neg h2, if_neg h3, if_neg h4]

/-- Dwell accumulation: with trackers already at `(X, j)`, a run of
`T + 1 - j` further polls of `X` trips the threshold, consuming nothing
beyond it. -/
lemma loopGo_stuck_fail (T : Nat) (X : SStates)
    (h1 : X ∉ states_to_end) (h2 : X ∉ failure_states)
    (h3 : X ≠ SStates.PENDING) (h4 : X ≠ SStates.RUNNING) :
    ∀ (n j p : Nat) (rest : List ProbeResult), j ≤ T → T < j + n →
      loopGo T X j X p (List.replicate n (ProbeResult.state X) ++ rest) =
        Sum.inl ⟨false, true, X, p + (T + 1 - j), true⟩ := by
  intro n
  induction n with
  | zero =>
    intro j p rest hj hT
    exact absurd hT (by omega)
  | succ m ih =>
    intro j p rest hj hT
    rw [List.replicate_succ, List.cons_append]
    simp only [loopGo, if_neg h1, if_neg h2, if_neg h3, if_neg h4, if_pos rfl]
    by_cases hc : j + 1 > T
    · rw [if_pos hc]
      have he : T + 1 - j = 1 := by omega
      rw [he]
      simp
    · rw [if_neg hc]
      have he : p + 1 + (T + 1 - (j + 1)) = p + (T + 1 - j) := by omega
      rw [ih (j + 1) (p + 1) rest (by omega) (by omega), he]
      simp

/-- Dwell accumulation below the threshold: with trackers at `(X, j)`
and `j + n ≤ T`, a run of `n` polls of `X` leaves the loop still
polling, the counter at `j + n`. -/
lemma loopGo_stuck_pending (T : Nat) (X : SStates)
    (h1 : X ∉ states_to_end) (h2 : X ∉ failure_states)
    (h3 : X ≠ SStates.PENDING) (h4 : X ≠ SStates.RUNNING) :
    ∀ (n j p : Nat), j + n ≤ T →
      loopGo T X j X p (List.replicate n (ProbeResult.state X)) =
        Sum.inr ⟨X, j + n, X, p + n⟩ := by
  intro n
  induction n with
  | zero =>
    intro j p hn
    simp [loopGo]
  | succ m ih =>
    intro j p hn
    rw [List.replicate_succ]
    simp only [loopGo, if_neg h1, if_neg h2, if_neg h3, if_neg h4, if_pos rfl]
    rw [if_neg (by omega : ¬j + 1 > T)]
    have e1 : j + 1 + m = j + (m + 1) := by omega
    have e2 : p + 1 + m = p + (m + 1) := by omega
    rw [ih (j + 1) (p + 1) (by omega), e1, e2]
    simp

/-- A fresh loop fed `T + 2` polls of a fixed strange state `X` returns
failure on poll `T + 2`, with `__ok` set, whatever comes after. -/
lemma loopRun_stuck (T : Nat) (X : SStates)
    (h1 : X ∉ states_to_end) (h2 : X ∉ failure_states)
    (h3 : X ≠ SStates.PENDING) (h4 : X ≠ SStates.RUNNING)
    (rest : List ProbeResult) :
    loopRun T (List.replicate (T + 2) (ProbeResult.state X) ++ rest) =
      some ⟨false, true, X, T + 2, true⟩ := by
  rw [loopRun, List.replicate_succ, List.cons_append,
    loopGo_entry T X h1 h2 h3 h4 _ 0,
    loopGo_stuck_fail T X h1 h2 h3 h4 (T + 1) 0 1 rest (by omega) (by omega)]
  have he : 1 + (T + 1 - 0) = T + 2 := by omega
  rw [he]

/-- A fresh loop fed at most `T + 1` polls of a fixed strange state `X`
runs out of probe results without returning. -/
lemma loopRun_stuck_short (T : Nat) (X : SStates)
    (h1 : X ∉ states_to_end) (h2 : X ∉ failure_states)
    (h3 : X ≠ SStates.PENDING) (h4 : X ≠ SStates.RUNNING)
    (n : Nat) (hn : n ≤ T + 1) :
    loopRun T (List.replicate n (ProbeResult.state X)) = none := by
  match n, hn with
  | 0, _ => rfl
  | m + 1, hn =>
    rw [loopRun, List.replicate_succ,
      loopGo_entry T X h1 h2 h3 h4 _ 0,
      loopGo_stuck_pending T X h1 h2 h3 h4 m 0 1 (by omega)]

/-- Running the loop on a concatenation: either the first chunk already
returns, or the loop continues into the second chunk with the trackers
the first chunk left behind. -/
lemma loopGo_append (T : Nat) (ys : List ProbeResult) :
    ∀ (xs : List ProbeResult) (ls : SStates) (c : Nat) (cs : SStates) (p : Nat),
      loopGo T ls c cs p (xs ++ ys) =
        match loopGo T ls c cs p xs with
        | Sum.inl r => Sum.inl r
        | Sum.inr q => loopGo T q.lastState q.lastTimes q.curState q.polls ys := by
  intro xs
  induction xs with
  | nil =>
    intro ls c cs p
    simp [loopGo]
  | cons r rest ih =>
    intro ls c cs p
    cases r with
    | exn => simp [loopGo]
    | state s =>
      simp only [List.cons_append, loopGo]
      split_ifs <;> first
        | rfl
        | apply ih

/-- When the probe results run out, the poll counter has advanced by
exactly their number. -/
lemma loopGo_inr_polls (T : Nat) :
    ∀ (xs : List ProbeResult) (ls : SStates) (c : Nat) (cs : SStates) (p : Nat)
      (q : LoopPending),
      loopGo T ls c cs p xs = Sum.inr q → q.polls = p + xs.length := by
  intro xs
  induction xs with
  | nil =>
    intro ls c cs p q h
    simp only [loopGo] at h
    injection h with h
    rw [← h]
    simp
  | cons r rest ih =>
    intro ls c cs p q h
    cases r with
    | exn => simp [loopGo] at h
    | state s =>
      simp only [loopGo] at h
      split_ifs at h <;> first
        | simp at h
        | (have hq := ih _ _ _ _ _ h
           simp only [List.length_cons]
           omega)

/-- C1 counterexample. The claim puts the dwell failure at iteration
`T + 1`: with threshold 2, three `SUSPENDED` polls from the start should
fail, and the probe sequence `[RUNNING, SUSPENDED, SUSPENDED, SUSPENDED]`
should fail on the 4th poll. On the code, both runs exhaust their probe
results with the loop still polling (`none`): the first poll of a
strange state only resets the tracker (from the initial `PENDING`, or
from `RUNNING`), so the counter reaches `T + 1 > T` one poll later than
claimed. -/
theorem C1_counterexample :
    loopRun 2 (List.replicate 3 (ProbeResult.state SStates.SUSPENDED)) = none ∧
    loopRun 2 [ProbeResult.state SStates.RUNNING, ProbeResult.state SStates.SUSPENDED,
      ProbeResult.state SStates.SUSPENDED, ProbeResult.state SStates.SUSPENDED] = none := by
  exact ⟨rfl, rfl⟩

/-- C1 (amended). For a non-RUNNING, non-PENDING, non-terminal state `X`
repeated from the start with dwell threshold `T`, the loop returns
failure exactly on iteration `T + 2` (final state `X`, `__ok` set) and
does not fail on any iteration `≤ T + 1`. (`PENDING` must be excluded:
it has its own branch and never touches the dwell tracker.) -/
theorem C1_amended_dwell (T : Nat) (X : SStates)
    (h1 : X ∉ states_to_end) (h2 : X ∉ failure_states)
    (h3 : X ≠ SStates.PENDING) (h4 : X ≠ SStates.RUNNING) :
    (∀ n, n ≤ T + 1 →
      loopRun T (List.replicate n (ProbeResult.state X)) = none) ∧
    (∀ rest, loopRun T (List.replicate (T + 2) (ProbeResult.state X) ++ rest) =
      some ⟨false, true, X, T + 2, true⟩) := by
  constructor
  · intro n hn
    exact loopRun_stuck_short T X h1 h2 h3 h4 n hn
  · intro rest
    exact loopRun_stuck T X h1 h2 h3 h4 rest

/-- C1 witness: threshold 2, `SUSPENDED` repeated; no failure at 3 polls,
failure on poll 4. -/
theorem C1_amended_dwell_witness :
    loopRun 2 (List.replicate 3 (ProbeResult.state SStates.SUSPENDED)) = none ∧
    loopRun 2 (List.replicate 4 (ProbeResult.state SStates.SUSPENDED) ++ []) =
      some ⟨false, true, SStates.SUSPENDED, 4, true⟩ := by
  have h := C1_amended_dwell 2 SStates.SUSPENDED (by decide) (by decide)
    (by decide) (by decide)
  exact ⟨h.1 3 (by omega), h.2 []⟩

/-- C2 counterexample. A fresh supervisor enters (creating the lock),
the probe raises on the first poll: the loop returns failure with
`__ok` still unset (the user was informed), and `__exit__` then deletes
nothing — the lock file created on entry survives, contrary to the
claim that it is released on every exit path. -/
theorem C2_counterexample :
    poller_enter true false = EnterOutcome.entered ∧
    lockAfterEnter true false = true ∧
    loopRun 3 [ProbeResult.exn] =
      some ⟨false, false, SStates.PENDING, 1, true⟩ ∧
    (poller_exit false SStates.PENDING false true).lockDeleted = false := by
  exact ⟨rfl, rfl, rfl, rfl⟩

/-- C2 (amended). `__exit__` deletes the lock file exactly when the loop
set the internal `__ok` flag; when the probe raises, the loop returns
failure with the flag unset after notifying the user, so the lock file
is not deleted on that path. -/
theorem C2_amended_lock :
    (∀ (ok : Bool) (s : SStates) (nr cmd : Bool),
      (poller_exit ok s nr cmd).lockDeleted = ok) ∧
    (∀ (T : Nat) (ls : SStates) (c : Nat) (cs : SStates) (p : Nat)
      (rest : List ProbeResult),
      loopGo T ls c cs p (ProbeResult.exn :: rest) =
        Sum.inl ⟨false, false, cs, p + 1, true⟩) := by
  constructor
  · decide
  · intro T ls c cs p rest
    rfl

/-- C3 counterexample. Two well-formed lines, the first for job 999, the
second for the configured job 123: the probe takes the state from the
first matching line (`FAILED`, job 999), not from job 123's line
(`RUNNING`). -/
theorem C3_counterexample :
    perform_check 123 ["999|FAILED|".data, "123|RUNNING|".data] =
      some SStates.FAILED ∧
    perform_check 123 ["999|FAILED|".data, "123|RUNNING|".data] ≠
      some SStates.RUNNING := by
  constructor
  · rfl
  · decide

/-- C3 (amended). The probe selects the first line matching
`^\d+\|[a-zA-Z]+\|$` and sets the state from that line's token,
regardless of the numeric job id carried by any line: the configured
job id plays no part in the selection. -/
theorem C3_amended_first_match (j j' : Nat) (pre : List (List Char))
    (l : List Char) (rest : List (List Char)) (tok : List Char)
    (hpre : ∀ q ∈ pre, matchLine q = none) (hl : matchLine l = some tok) :
    perform_check j (pre ++ l :: rest) = sstatesOfToken tok ∧
    perform_check j (pre ++ l :: rest) = perform_check j' (pre ++ l :: rest) := by
  constructor
  · induction pre with
    | nil => simp only [List.nil_append, perform_check, hl]
    | cons q qre ih =>
      have hq := hpre q (by simp)
      simp only [List.cons_append, perform_check, hq]
      exact ih fun x hx => hpre x (by simp [hx])
  · exact perform_check_jobid j j' _

/-- C3 witness: a junk line followed by a well-formed line for job 55,
under configured job ids 123 and 777. -/
theorem C3_amended_first_match_witness :
    perform_check 123 ["abc".data, "55|COMPLETED|".data] =
      sstatesOfToken "COMPLETED".data ∧
    perform_check 123 ["abc".data, "55|COMPLETED|".data] =
      perform_check 777 ["abc".data, "55|COMPLETED|".data] :=
  C3_amended_first_match 123 777 ["abc".data] "55|COMPLETED|".data []
    "COMPLETED".data (by decide) (by decide)

/-- C4 counterexample. The line `123|Runningx|` matches the per-line
pattern but carries an unrecognized token, so `SStates("Runningx")`
raises `ValueError` (`none`): the probe does not set a state and does
raise on account of the output's content, contrary to the claim. -/
theorem C4_counterexample :
    perform_check 123 ["123|Runningx|".data] = none := by
  rfl

/-- C4 (amended). The probe raises on account of the output's content
exactly when the first pattern-matching line carries a token that is not
a recognized state value; in every other case it sets a state (in
particular `UNKNOWN_STATE` when no line matches). -/
theorem C4_amended_raise_iff (j : Nat) (lines : List (List Char)) :
    perform_check j lines = none ↔
      ∃ pre l rest tok, lines = pre ++ l :: rest ∧
        (∀ q ∈ pre, matchLine q = none) ∧
        matchLine l = some tok ∧ sstatesOfToken tok = none := by
  induction lines with
  | nil =>
    simp only [perform_check]
    constructor
    · intro h
      exact absurd h (by simp)
    · rintro ⟨pre, l, rest, tok, habs, -⟩
      exact absurd habs (by simp)
  | cons l0 rest0 ih =>
    rcases hm : matchLine l0 with _ | tok0
    · simp only [perform_check, hm]
      rw [ih]
      constructor
      · rintro ⟨pre, l, rest, tok, hdec, hpre, hl, htok⟩
        refine ⟨l0 :: pre, l, rest, tok, by simp [hdec], ?_, hl, htok⟩
        intro q hq
        rcases List.mem_cons.mp hq with h1 | h2
        · rw [h1]
          exact hm
        · exact hpre q h2
      · rintro ⟨pre, l, rest, tok, hdec, hpre, hl, htok⟩
        cases pre with
        | nil =>
          simp only [List.nil_append, List.cons.injEq] at hdec
          obtain ⟨he1, he2⟩ := hdec
          rw [he1] at hm
          rw [hm] at hl
          exact absurd hl (by simp)
        | cons p0 pre2 =>
          simp only [List.cons_append, List.cons.injEq] at hdec
          obtain ⟨he1, he2⟩ := hdec
          exact ⟨pre2, l, rest, tok, he2,
            fun q hq => hpre q (by simp [hq]), hl, htok⟩
    · simp only [perform_check, hm]
      constructor
      · intro h
        exact ⟨[], l0, rest0, tok0, by simp, by simp, hm, h⟩
      · rintro ⟨pre, l, rest, tok, hdec, hpre, hl, htok⟩
        cases pre with
        | nil =>
          simp only [List.nil_append, List.cons.injEq] at hdec
          obtain ⟨he1, he2⟩ := hdec
          rw [he1] at hm
          rw [hm] at hl
          injection hl with he
          rw [← he] at htok
          exact htok
        | cons p0 pre2 =>
          simp only [List.cons_append, List.cons.injEq] at hdec
          obtain ⟨he1, he2⟩ := hdec
          have hp0 := hpre p0 (by simp)
          rw [← he1] at hp0
          rw [hp0] at hm
          exact absurd hm (by simp)

/-- C4 witness: the iff instantiated at `9|Zz|`, whose token `Zz` is no
state value, showing the probe raises there. -/
theorem C4_amended_raise_iff_witness :
    perform_check 9 ["9|Zz|".data] = none :=
  (C4_amended_raise_iff 9 ["9|Zz|".data]).mpr
    ⟨[], "9|Zz|".data, [], "Zz".data, by simp, by simp, by decide, by decide⟩

/-- C5. When the loop exits because the dwell threshold was exceeded,
`start_loop` returns `False` (`retval = false`) with `__ok` set
(`okFlag = true`); `__exit__` then deletes the lock file and — with no
`NORESTART` file and a configured follow-up command — launches the
command, because the stuck state is neither a failure state nor
`COMPLETED`. -/
theorem C5_stuck_releases_and_relaunches (T : Nat) (X : SStates)
    (h1 : X ∉ states_to_end) (h2 : X ∉ failure_states)
    (h3 : X ≠ SStates.PENDING) (h4 : X ≠ SStates.RUNNING)
    (rest : List ProbeResult) :
    start_loop true T (List.replicate (T + 2) (ProbeResult.state X) ++ rest) =
      some ⟨false, true, X, T + 2, true⟩ ∧
    (poller_exit true X false true).lockDeleted = true ∧
    (poller_exit true X false true).cmdLaunched = true := by
  have hXC : X ≠ SStates.COMPLETED := by
    intro he
    rw [he] at h1
    exact h1 (by decide)
  refine ⟨?_, ?_, ?_⟩
  · show loopRun T _ = _
    exact loopRun_stuck T X h1 h2 h3 h4 rest
  · simp [poller_exit, h2, hXC]
  · simp [poller_exit, h2, hXC]

/-- C5 witness: threshold 1, stuck in `COMPLETING` for 3 polls. -/
theorem C5_stuck_releases_and_relaunches_witness :
    start_loop true 1 (List.replicate 3 (ProbeResult.state SStates.COMPLETING) ++ []) =
      some ⟨false, true, SStates.COMPLETING, 3, true⟩ ∧
    (poller_exit true SStates.COMPLETING false true).lockDeleted = true ∧
    (poller_exit true SStates.COMPLETING false true).cmdLaunched = true :=
  C5_stuck_releases_and_relaunches 1 SStates.COMPLETING (by decide) (by decide)
    (by decide) (by decide) []

/-- C6. Classification is total and partitions the enumeration: the two
terminal lists are disjoint, every state falls in exactly one category,
membership in each terminal list characterizes its category, and every
state in neither list — `UNKNOWN_STATE` included — is in-progress. -/
theorem C6_classification_partition :
    (∀ s : SStates, ¬(s ∈ states_to_end ∧ s ∈ failure_states)) ∧
    (∀ s : SStates, classify s = StateCategory.success ↔ s ∈ states_to_end) ∧
    (∀ s : SStates, classify s = StateCategory.failure ↔ s ∈ failure_states) ∧
    (∀ s : SStates, classify s = StateCategory.inProgress ↔
      (s ∉ states_to_end ∧ s ∉ failure_states)) ∧
    classify SStates.UNKNOWN_STATE = StateCategory.inProgress := by
  refine ⟨by decide, by decide, by decide, by decide, rfl⟩

/-- C7. For every probe output in which no line matches the pattern
`^\d+\|[A-Za-z_]+\|` (the spec's pattern: underscore allowed, matched at
the start of the line), the probe sets `UNKNOWN_STATE` and does not
raise. Holds because every line the code's stricter pattern
`^\d+\|[a-zA-Z]+\|$` accepts is also accepted by the spec's pattern. -/
theorem C7_unmatched_output_unknown (jobid : Nat) (lines : List (List Char))
    (h : ∀ l ∈ lines, specLineMatch l = false) :
    perform_check jobid lines = some SStates.UNKNOWN_STATE := by
  induction lines with
  | nil => rfl
  | cons l rest ih =>
    have hl : specLineMatch l = false := h l (by simp)
    have hm : matchLine l = none := by
      rcases hml : matchLine l with _ | tok
      · rfl
      · rw [matchLine_spec l tok hml] at hl
        exact absurd hl (by simp)
    simp only [perform_check, hm]
    exact ih fun q hq => h q (by simp [hq])

/-- C7 witness: typical error output of the status query, no line
matching the pattern. -/
theorem C7_unmatched_output_unknown_witness :
    perform_check 7 ["sacct: error".data, "no jobs".data] =
      some SStates.UNKNOWN_STATE :=
  C7_unmatched_output_unknown 7 ["sacct: error".data, "no jobs".data] (by decide)

/-- C8 counterexample. Threshold 0, probe sequence
`[SUSPENDED, SUSPENDED, FAILED]`: the first terminal classification in
the sequence is the terminal failure `FAILED` on poll 3, but the loop
already returns `ok=false` on poll 2 via the dwell threshold, with final
state `SUSPENDED` and `__ok` set — and `__exit__` then launches the
follow-up command, contrary to the claim. -/
theorem C8_counterexample :
    loopRun 0 [ProbeResult.state SStates.SUSPENDED,
      ProbeResult.state SStates.SUSPENDED, ProbeResult.state SStates.FAILED] =
      some ⟨false, true, SStates.SUSPENDED, 2, true⟩ ∧
    (poller_exit true SStates.SUSPENDED false true).cmdLaunched = true := by
  exact ⟨rfl, rfl⟩

/-- C8 (amended). For every probe sequence that reaches its first
terminal-failure poll without the loop having already returned — the
polls before it leave the loop still polling — the loop returns
`ok=false` on that poll with `__ok` set, and `__exit__` never launches
the follow-up command for that terminal-failure final state. -/
theorem C8_amended_failure_no_relaunch (T : Nat) (pre : List ProbeResult)
    (F : SStates) (rest : List ProbeResult)
    (ls : SStates) (c : Nat) (cs : SStates) (p : Nat)
    (hF : F ∈ failure_states)
    (hpre : loopGo T SStates.PENDING 0 SStates.PENDING 0 pre =
      Sum.inr ⟨ls, c, cs, p⟩) :
    loopRun T (pre ++ ProbeResult.state F :: rest) =
      some ⟨false, true, F, pre.length + 1, true⟩ ∧
    ∀ nr cmd, (poller_exit true F nr cmd).cmdLaunched = false := by
  have hp : p = pre.length := by
    have hq := loopGo_inr_polls T pre SStates.PENDING 0 SStates.PENDING 0
      ⟨ls, c, cs, p⟩ hpre
    simpa using hq
  constructor
  · rw [loopRun, loopGo_append T (ProbeResult.state F :: rest) pre
      SStates.PENDING 0 SStates.PENDING 0, hpre]
    have hFend : F ∉ states_to_end := mem_failure_not_end F hF
    simp only [loopGo, if_neg hFend, if_pos hF]
    rw [hp]
  · intro nr cmd
    simp [poller_exit, hF]

/-- C8 witness: `RUNNING` then `CANCELLED` with threshold 5; failure on
poll 2, no relaunch. -/
theorem C8_amended_failure_no_relaunch_witness :
    loopRun 5 [ProbeResult.state SStates.RUNNING,
      ProbeResult.state SStates.CANCELLED] =
      some ⟨false, true, SStates.CANCELLED, 2, true⟩ ∧
    ∀ nr cmd, (poller_exit true SStates.CANCELLED nr cmd).cmdLaunched = false :=
  C8_amended_failure_no_relaunch 5 [ProbeResult.state SStates.RUNNING]
    SStates.CANCELLED [] SStates.RUNNING 0 SStates.RUNNING 1
    (by decide) (by decide)

/-- C9. With the lock file already present at acquire time (and the
configuration check passing), `__enter__` raises the lockfile-exists
error at once, the lock file is left exactly as it was, `__allow` stays
unset, and the `with`-block run makes no probe call — the loop never
starts. -/
theorem C9_lock_contention : ∀ (T : Nat) (probes : List ProbeResult),
    poller_enter true true = EnterOutcome.lockfileExists ∧
    lockAfterEnter true true = true ∧
    allowAfterEnter true true = false ∧
    start_loop (allowAfterEnter true true) T probes =
      some ⟨false, false, SStates.PENDING, 0, false⟩ ∧
    runWithContext true true T probes = 0 := by
  intro T probes
  exact ⟨rfl, rfl, rfl, rfl, rfl⟩

/-- C10. Observing `RUNNING` resets the dwell tracker: with threshold 2,
the probe sequence `RUNNING, X, X, X, RUNNING, X, X, X` (for any fixed
non-RUNNING, non-PENDING, non-terminal `X`) never trips the dwell
failure — the loop is still polling when the sequence runs out. -/
theorem C10_running_resets_dwell : ∀ (X : SStates),
    X ∉ states_to_end → X ∉ failure_states →
    X ≠ SStates.RUNNING → X ≠ SStates.PENDING →
    loopRun 2 [ProbeResult.state SStates.RUNNING, ProbeResult.state X,
      ProbeResult.state X, ProbeResult.state X,
      ProbeResult.state SStates.RUNNING, ProbeResult.state X,
      ProbeResult.state X, ProbeResult.state X] = none := by
  decide

/-- C10 witness: the sequence with `X = SUSPENDED`. -/
theorem C10_running_resets_dwell_witness :
    loopRun 2 [ProbeResult.state SStates.RUNNING,
      ProbeResult.state SStates.SUSPENDED, ProbeResult.state SStates.SUSPENDED,
      ProbeResult.state SStates.SUSPENDED, ProbeResult.state SStates.RUNNING,
      ProbeResult.state SStates.SUSPENDED, ProbeResult.state SStates.SUSPENDED,
      ProbeResult.state SStates.SUSPENDED] = none :=
  C10_running_resets_dwell SStates.SUSPENDED (by decide) (by decide)
    (by decide) (by decide)

end Pysbatch
